import Mathlib

/-!
Verification of the HOMA-IR estimator (`estimate_homa_ir` from
`estimate_HOMA_IR.ipynb`) against its natural-language specification.
The function is a pure arithmetic pipeline on real numbers; we embed it
over ℚ, reading the Python arithmetic as exact rational arithmetic.
-/

/-- Shallow embedding of `estimate_homa_ir` from the notebook, step by
step with the source's intermediate names and constants. -/
def estimate_homa_ir (total_daily_insulin_IU fasting_glucose_mg_dl : ℚ) : ℚ :=
  let insulin_infusion_rate_IU_per_hour := total_daily_insulin_IU / 24
  let insulin_infusion_rate_pmol_per_min :=
    (insulin_infusion_rate_IU_per_hour * 6 * 1000) / 60
  let insulin_clearance_mL_per_min : ℚ := 1500
  let Css_pmol_per_L :=
    (insulin_infusion_rate_pmol_per_min / insulin_clearance_mL_per_min) * 1000
  let fasting_insulin_uU_per_mL := Css_pmol_per_L / 6
  let homa_ir := (fasting_insulin_uU_per_mL * fasting_glucose_mg_dl) / 405
  homa_ir

/-- Division guarded against a zero divisor, used to embed the safety
claim that no division in the pipeline can divide by zero. -/
def divOpt (a b : ℚ) : Option ℚ := if b = 0 then none else some (a / b)

/-- The same pipeline as `estimate_homa_ir`, but with every division
checked: it returns `none` exactly when some divisor is zero. -/
def estimate_homa_ir_checked (total_daily_insulin_IU fasting_glucose_mg_dl : ℚ) :
    Option ℚ := do
  let insulin_infusion_rate_IU_per_hour ← divOpt total_daily_insulin_IU 24
  let insulin_infusion_rate_pmol_per_min ←
    divOpt (insulin_infusion_rate_IU_per_hour * 6 * 1000) 60
  let quotient_by_clearance ← divOpt insulin_infusion_rate_pmol_per_min 1500
  let Css_pmol_per_L := quotient_by_clearance * 1000
  let fasting_insulin_uU_per_mL ← divOpt Css_pmol_per_L 6
  divOpt (fasting_insulin_uU_per_mL * fasting_glucose_mg_dl) 405

/-- Rounding of a rational to two decimal places, as the display layer
does (the example value is far from a rounding tie, so half-up floor
rounding agrees with the host float formatting). -/
def twoDecRound (q : ℚ) : ℚ := ((⌊q * 100 + 1 / 2⌋ : ℤ) : ℚ) / 100

/-- Rendering of a nonnegative rational to a string with exactly two
decimal places, modelling the driver's two-decimal formatting. -/
def formatTwoDec (q : ℚ) : String :=
  let n : ℤ := ⌊q * 100 + 1 / 2⌋
  let intPart := n / 100
  let fracPart := n % 100
  toString intPart ++ "." ++
    (if fracPart < 10 then "0" ++ toString fracPart else toString fracPart)

/-- The example driver's inputs: total daily insulin in IU. -/
def total_daily_insulin : ℚ := 20

/-- The example driver's inputs: fasting glucose in mg/dL. -/
def fasting_glucose : ℚ := 140

/-- The value the example driver computes. -/
def homa_ir_estimate : ℚ := estimate_homa_ir total_daily_insulin fasting_glucose

/-- The line the example driver prints. -/
def mainOutput : String := "Estimated HOMA-IR: " ++ formatTwoDec homa_ir_estimate

/-- C1: for every non-negative rational `d` (total daily insulin) and `g`
(fasting glucose), `estimate_homa_ir d g` equals the chained expression
`(((((d/24) * 6 * 1000 / 60) / 1500) * 1000) / 6 * g) / 405`, the five
conversion steps of the spec applied in that fixed order. -/
theorem estimate_eq_chained (d g : ℚ) (hd : 0 ≤ d) (hg : 0 ≤ g) :
    estimate_homa_ir d g = (((((d / 24) * 6 * 1000 / 60) / 1500) * 1000) / 6 * g) / 405 := by
  simp only [estimate_homa_ir]

/-- Witness for C1 at the concrete input d = 2, g = 3. -/
theorem estimate_eq_chained_witness :
    0 ≤ (2 : ℚ) ∧ 0 ≤ (3 : ℚ) ∧
      estimate_homa_ir 2 3 =
        ((((((2 : ℚ) / 24) * 6 * 1000 / 60) / 1500) * 1000) / 6 * 3) / 405 :=
  ⟨by norm_num, by norm_num, estimate_eq_chained 2 3 (by norm_num) (by norm_num)⟩

/-- C2 counterexample: at d = 20, g = 140 the code returns 7000/2187 ≈ 3.20,
not 20 * 140 / 145800 ≈ 0.0192, so the spec's simplified closed form
`d * g / 145800` is false. -/
theorem estimate_ne_div_145800 :
    ¬ estimate_homa_ir 20 140 = (20 : ℚ) * 140 / 145800 := by
  norm_num [estimate_homa_ir]

/-- C2 amended: for every non-negative rational `d` and `g`,
`estimate_homa_ir d g` equals the simplified closed form
`25 * d * g / 21870` (equivalently `d * g / 874.8`), not `d * g / 145800`. -/
theorem estimate_simplified_nonneg (d g : ℚ) (hd : 0 ≤ d) (hg : 0 ≤ g) :
    estimate_homa_ir d g = 25 * d * g / 21870 := by
  simp only [estimate_homa_ir]
  ring

/-- Witness for the amended C2 at the concrete input d = 20, g = 140. -/
theorem estimate_simplified_nonneg_witness :
    0 ≤ (20 : ℚ) ∧ 0 ≤ (140 : ℚ) ∧
      estimate_homa_ir 20 140 = 25 * (20 : ℚ) * 140 / 21870 :=
  ⟨by norm_num, by norm_num, estimate_simplified_nonneg 20 140 (by norm_num) (by norm_num)⟩

/-- C3: for every rational `d` and `g`, the value computed by
`estimate_homa_ir d g` in exact rational arithmetic equals
`25 * d * g / 21870`, i.e. `d * g / 874.8`: the five conversion steps
collapse to this single constant scaling. -/
theorem estimate_closed_form (d g : ℚ) :
    estimate_homa_ir d g = 25 * d * g / 21870 ∧
      estimate_homa_ir d g = d * g / (874.8 : ℚ) := by
  constructor <;> · simp only [estimate_homa_ir]; norm_num; ring

/-- C4: rounded to two decimal places, `estimate_homa_ir 20 140` equals
3.20, and the example driver prints exactly the line
`Estimated HOMA-IR: 3.20`. -/
theorem driver_prints_3_20 :
    twoDecRound (estimate_homa_ir 20 140) = (3.20 : ℚ) ∧
      mainOutput = "Estimated HOMA-IR: 3.20" := by
  have h : (⌊estimate_homa_ir 20 140 * 100 + 1 / 2⌋ : ℤ) = 320 := by
    norm_num [estimate_homa_ir]
  constructor
  · norm_num [twoDecRound, h]
  · simp only [mainOutput, homa_ir_estimate, total_daily_insulin, fasting_glucose,
      formatTwoDec, h]
    decide

/-- C5: for every rational `g`, a zero insulin dose yields a zero
estimated score: `estimate_homa_ir 0 g = 0`. -/
theorem estimate_zero_insulin (g : ℚ) : estimate_homa_ir 0 g = 0 := by
  simp [estimate_homa_ir]

/-- C6: for every rational `d`, a zero fasting-glucose value yields a zero
estimated score: `estimate_homa_ir d 0 = 0`. -/
theorem estimate_zero_glucose (d : ℚ) : estimate_homa_ir d 0 = 0 := by
  simp [estimate_homa_ir]

/-- C7: for every rational `d` and `g`, doubling either input doubles the
output: the formula is bilinear in its two arguments. -/
theorem estimate_linear_scaling (d g : ℚ) :
    estimate_homa_ir (2 * d) g = 2 * estimate_homa_ir d g ∧
      estimate_homa_ir d (2 * g) = 2 * estimate_homa_ir d g := by
  constructor <;> · simp only [estimate_homa_ir]; ring

/-- C8: `estimate_homa_ir` is total: the division-checked embedding of
the pipeline never hits a zero divisor (every divisor is the fixed
non-zero literal 24, 60, 1500, 6 or 405) and always returns `some` of
the value `estimate_homa_ir` computes. -/
theorem estimate_checked_total (d g : ℚ) :
    estimate_homa_ir_checked d g = some (estimate_homa_ir d g) := by
  simp [estimate_homa_ir_checked, divOpt, estimate_homa_ir]

/-- C9: `estimate_homa_ir` is deterministic: any two calls on identical
inputs return identical results, with no dependence on hidden state. -/
theorem estimate_deterministic (d₁ g₁ d₂ g₂ : ℚ) (hd : d₁ = d₂) (hg : g₁ = g₂) :
    estimate_homa_ir d₁ g₁ = estimate_homa_ir d₂ g₂ := by
  rw [hd, hg]

/-- Witness for C9 at the concrete input d = 20, g = 140. -/
theorem estimate_deterministic_witness :
    (20 : ℚ) = 20 ∧ (140 : ℚ) = 140 ∧
      estimate_homa_ir 20 140 = estimate_homa_ir 20 140 :=
  ⟨rfl, rfl, estimate_deterministic 20 140 20 140 rfl rfl⟩

/-- C10: for every rational `d` and `g`, negating either input negates the
output; a negative dose or glucose silently yields a negative score. -/
theorem estimate_odd_in_each_arg (d g : ℚ) :
    estimate_homa_ir (-d) g = -estimate_homa_ir d g ∧
      estimate_homa_ir d (-g) = -estimate_homa_ir d g := by
  constructor <;> · simp only [estimate_homa_ir]; ring
